import Mathlib

/-!
Verification of the generation service of `mermaid-server`
(`src/internal/generator.go`), a cache-aside diagram generator with a
time-based cleanup sweep.

The embedding is shallow: the Go methods become Lean functions that
thread the caller's `Diagram` explicitly and record every externally
visible side effect (cache-store upserts and deletions, file writes and
removals, backend invocations) in a trace.  The collaborators — the
cache store, the filesystem and the rendering backend — are modelled by
an environment of response functions, so each theorem quantifies over
all collaborator behaviours.  Times and durations are integers
(nanoseconds, as in Go's `time` package).
-/

/-- Modelled from the spec: the `Diagram` record (its Go definition is not
part of the sources given).  `description` holds the raw diagram source
bytes, `imgType` the output format selector, `Output` the path of the
rendered artifact (empty until generation succeeds) and `lastTouched` the
timestamp of last confirmed use. -/
structure Diagram where
  description : String
  imgType : String
  Output : String
  lastTouched : Int
  deriving DecidableEq, Repr

/-- Modelled from the spec: `Diagram.Touch` advances `lastTouched` to the
current time (its Go definition is not part of the sources given). -/
def Diagram.Touch (d : Diagram) (now : Int) : Diagram :=
  { d with lastTouched := now }

/-- Modelled from the spec: `Diagram.TouchedInDuration` reports whether
`lastTouched` falls within the given duration of the current time
("touched recently enough to keep"; its Go definition is not part of the
sources given). -/
def Diagram.TouchedInDuration (d : Diagram) (now : Int) (duration : Int) : Bool :=
  now - d.lastTouched ≤ duration

/-- Result of `os.Stat` on the backend executable, as the Go code
distinguishes its outcomes: present, absent (`os.IsNotExist`), or some
other stat error. -/
inductive StatRes where
  | found
  | notExist
  | statErr (e : String)
  deriving DecidableEq, Repr

/-- An externally visible side effect of the generation service: a
cache-store upsert (`cache.Store`), a successful write of the input
description file (`ioutil.WriteFile`), an invocation of the mermaid CLI
with its argument list (`exec.Command(...).Run`), a successful removal of
a file (`os.Remove`), or a cache-record removal (`cache.Delete`). -/
inductive Effect where
  | storeCall (d : Diagram)
  | writeInputFile (path : String) (content : String)
  | runBackend (args : List String)
  | removeFile (path : String)
  | cacheDeleteCall (d : Diagram)
  deriving DecidableEq, Repr

/-- Behaviour of the collaborators during one run: the current clock, the
content fingerprint (`diagram.ID()`, deterministic in the description),
and the responses of the cache store, the filesystem and the rendering
backend.  `Option String` responses are `none` on success and
`some e` when the collaborator fails with error text `e`. -/
structure Env where
  now : Int
  idOf : String → Except String String
  hasResult : Diagram → Except String Bool
  getResult : Diagram → Except String Diagram
  storeOk : Diagram → Option String
  getAllResult : Except String (List Diagram)
  deleteOk : Diagram → Option String
  writeFileOk : String → String → Option String
  statResult : String → StatRes
  runOk : List String → Option String
  removeOk : String → Option String

/-- The `cachingGenerator` struct of `generator.go` minus its cache-store
field (the cache store lives in `Env`): the mermaid CLI path, the input
and output directories and the optional puppeteer configuration path. -/
structure cachingGenerator where
  mermaidCLIPath : String
  inPath : String
  outPath : String
  puppeteerConfigPath : String

/-- Input-file path derived by `generate`: `<inPath>/<id>.mmd`
(generator.go line 86). -/
def cachingGenerator.genInPath (c : cachingGenerator) (id : String) : String :=
  c.inPath ++ "/" ++ id ++ ".mmd"

/-- Output-file path derived by `generate`: `<outPath>/<id>.<imgType>`
(generator.go line 88). -/
def cachingGenerator.genOutPath (c : cachingGenerator) (id : String) (imgType : String) : String :=
  c.outPath ++ "/" ++ id ++ "." ++ imgType

/-- Output-file path derived by `delete`: `<outPath>/<id>.svg`, with the
extension hardcoded (generator.go line 159). -/
def cachingGenerator.delOutPath (c : cachingGenerator) (id : String) : String :=
  c.outPath ++ "/" ++ id ++ ".svg"

/-- Argument list passed to the mermaid CLI (generator.go lines 104-112):
`-i <in> -o <out>`, extended with `-p <puppeteerConfigPath>` exactly when
that configuration value is nonempty. -/
def cachingGenerator.mermaidArgs (c : cachingGenerator) (inPath outPath : String) :
    List String :=
  ["-i", inPath, "-o", outPath] ++
    (if c.puppeteerConfigPath ≠ "" then ["-p", c.puppeteerConfigPath] else [])

/-- The private `cachingGenerator.generate` method (generator.go lines
77-130): derive the input/output paths, write the description to the
input file, stat the mermaid executable, run it, and on success record
the output path on the diagram.  Returns the outcome, the diagram as the
caller sees it afterwards, and the trace of side effects. -/
def cachingGenerator.generate (c : cachingGenerator) (env : Env) (diagram : Diagram) :
    Except String Unit × Diagram × List Effect :=
  match env.idOf diagram.description with
  | .error e => (.error ("cannot get diagram ID: " ++ e), diagram, [])
  | .ok id =>
    let inPath := c.genInPath id
    let outPath := c.genOutPath id diagram.imgType
    match env.writeFileOk inPath diagram.description with
    | some e =>
        (.error ("could not write to input file [" ++ inPath ++ "]: " ++ e), diagram, [])
    | none =>
      let effs := [Effect.writeInputFile inPath diagram.description]
      match env.statResult c.mermaidCLIPath with
      | .notExist => (.error "mermaid executable does not exist", diagram, effs)
      | .statErr e => (.error ("could not stat mermaid executable: " ++ e), diagram, effs)
      | .found =>
        let args := c.mermaidArgs inPath outPath
        match env.runOk args with
        | some e =>
            (.error ("failed when executing mermaid: " ++ e), diagram,
              effs ++ [Effect.runBackend args])
        | none =>
            (.ok (), { diagram with Output := outPath },
              effs ++ [Effect.runBackend args])

/-- The public `cachingGenerator.Generate` method (generator.go lines
43-72): query the cache; on a hit fetch the cached record, overwrite the
caller's diagram with it, touch it and store it back; on a miss touch the
diagram, render it, and store the result. -/
def cachingGenerator.Generate (c : cachingGenerator) (env : Env) (diagram : Diagram) :
    Except String Unit × Diagram × List Effect :=
  match env.hasResult diagram with
  | .error e => (.error ("cache.Has failed: " ++ e), diagram, [])
  | .ok has =>
    if has then
      match env.getResult diagram with
      | .error e => (.error ("cache.Get failed: " ++ e), diagram, [])
      | .ok cached =>
        let touched := cached.Touch env.now
        match env.storeOk touched with
        | some e =>
            (.error ("cache.Store failed: " ++ e), touched, [Effect.storeCall touched])
        | none => (.ok (), touched, [Effect.storeCall touched])
    else
      let touched := diagram.Touch env.now
      match c.generate env touched with
      | (.error e, d2, effs) =>
          (.error ("cachingGenerater.generate failed: " ++ e), d2, effs)
      | (.ok _, d2, effs) =>
        match env.storeOk d2 with
        | some e =>
            (.error ("cache.Store failed: " ++ e), d2, effs ++ [Effect.storeCall d2])
        | none => (.ok (), d2, effs ++ [Effect.storeCall d2])

/-- The private `cachingGenerator.delete` method (generator.go lines
150-172): remove the input file, then the output file (with hardcoded
`.svg` extension), then the cache record; the first failure aborts with
its error.  Successful removals and the cache deletion are traced. -/
def cachingGenerator.delete (c : cachingGenerator) (env : Env) (diagram : Diagram) :
    Except String Unit × List Effect :=
  match env.idOf diagram.description with
  | .error e => (.error ("cannot get diagram ID: " ++ e), [])
  | .ok id =>
    let inPath := c.genInPath id
    let outPath := c.delOutPath id
    match env.removeOk inPath with
    | some e => (.error ("could not delete diagram input: " ++ e), [])
    | none =>
      match env.removeOk outPath with
      | some e =>
          (.error ("could not delete diagram output: " ++ e), [Effect.removeFile inPath])
      | none =>
        match env.deleteOk diagram with
        | some e =>
            (.error ("could not remove diagram from cache: " ++ e),
              [Effect.removeFile inPath, Effect.removeFile outPath])
        | none =>
            (.ok (),
              [Effect.removeFile inPath, Effect.removeFile outPath,
                Effect.cacheDeleteCall diagram])

/-- The loop body of `CleanUp` (generator.go lines 139-145): walk the
enumerated records; a record not touched within the duration is deleted;
a failed deletion returns its wrapped error at once, ending the walk. -/
def cachingGenerator.cleanUpLoop (c : cachingGenerator) (env : Env) (duration : Int) :
    List Diagram → Except String Unit × List Effect
  | [] => (.ok (), [])
  | d :: rest =>
    if d.TouchedInDuration env.now duration then
      c.cleanUpLoop env duration rest
    else
      match c.delete env d with
      | (.error e, effs) => (.error ("could not delete diagram: " ++ e), effs)
      | (.ok _, effs) =>
        let tail := c.cleanUpLoop env duration rest
        (tail.1, effs ++ tail.2)

/-- The public `cachingGenerator.CleanUp` method (generator.go lines
133-147): enumerate all cached records and sweep them with
`cleanUpLoop`. -/
def cachingGenerator.CleanUp (c : cachingGenerator) (env : Env) (duration : Int) :
    Except String Unit × List Effect :=
  match env.getAllResult with
  | .error e => (.error ("could not get cached diagrams: " ++ e), [])
  | .ok diagrams => c.cleanUpLoop env duration diagrams

/-! ## Concrete fixtures for witnesses -/

/-- A fixed service configuration used by the concrete witnesses. -/
def cfgA : cachingGenerator :=
  { mermaidCLIPath := "mmdc", inPath := "in", outPath := "out", puppeteerConfigPath := "" }

/-- A fixed service configuration with a nonempty puppeteer
configuration path. -/
def cfgP : cachingGenerator :=
  { mermaidCLIPath := "mmdc", inPath := "in", outPath := "out",
    puppeteerConfigPath := "pp.json" }

/-- A collaborator environment in which every operation succeeds, the
cache is empty and identities are the descriptions themselves. -/
def envOK : Env :=
  { now := 100
    idOf := fun s => .ok s
    hasResult := fun _ => .ok false
    getResult := fun _ => .error "absent"
    storeOk := fun _ => none
    getAllResult := .ok []
    deleteOk := fun _ => none
    writeFileOk := fun _ _ => none
    statResult := fun _ => .found
    runOk := fun _ => none
    removeOk := fun _ => none }

/-- A fixed diagram used by the concrete witnesses. -/
def diagA : Diagram := { description := "A", imgType := "svg", Output := "", lastTouched := 0 }

/-- A second fixed diagram, used in the cleanup-sweep scenarios. -/
def diagB : Diagram := { description := "B", imgType := "svg", Output := "", lastTouched := 0 }

/-- An environment for the cleanup scenarios: both fixture diagrams are
enumerated, every collaborator operation succeeds except the removal of
diagram A's input file `in/A.mmd`. -/
def envSweep : Env :=
  { envOK with
    now := 1000
    getAllResult := .ok [diagA, diagB]
    removeOk := fun p => if p = "in/A.mmd" then some "EACCES" else none }

/-- An environment in which the cache misses and the backend run fails. -/
def envRunFail : Env :=
  { envOK with runOk := fun _ => some "exit 1" }

/-- An environment for the partial-deletion scenario: every operation
succeeds except the removal of the output artifact `out/A.svg`. -/
def envOutFail : Env :=
  { envOK with
    removeOk := fun p => if p = "out/A.svg" then some "EPERM" else none }

/-- A stale diagram for the retention-boundary scenario: touched at
`85 = 100 - 10 - 5`, i.e. `now - W - ε` for `now = 100`, `W = 10`,
`ε = 5`. -/
def diagStale : Diagram :=
  { description := "A", imgType := "svg", Output := "", lastTouched := 85 }

/-- A fresh diagram for the retention-boundary scenario: touched at
`95 = 100 - 10 + 5`, i.e. `now - W + ε`. -/
def diagFresh : Diagram :=
  { description := "B", imgType := "svg", Output := "", lastTouched := 95 }

/-- An environment for the retention-boundary scenario: the cache
enumerates the stale and the fresh diagram and every operation
succeeds. -/
def envRet : Env :=
  { envOK with getAllResult := .ok [diagStale, diagFresh] }

/-! ## Helper lemmas -/

/-- Left cancellation for string append, needed to compare derived file
paths. -/
lemma string_append_left_cancel (s a b : String) (h : s ++ a = s ++ b) : a = b := by
  have hd : s.data ++ a.data = s.data ++ b.data := by
    have h2 := congrArg String.data h
    simpa using h2
  have h3 := List.append_cancel_left hd
  cases a; cases b; exact congrArg String.mk h3

/-- Associativity of string append, needed to compare derived file
paths. -/
lemma string_append_assoc (a b c : String) : a ++ b ++ c = a ++ (b ++ c) := by
  cases a; cases b; cases c
  exact congrArg String.mk (List.append_assoc _ _ _)

/-- `generate` never calls `cache.Store`: its trace holds only file
writes and backend invocations. -/
lemma generate_trace_no_store (c : cachingGenerator) (env : Env) (d d2 : Diagram) :
    Effect.storeCall d2 ∉ (c.generate env d).2.2 := by
  unfold cachingGenerator.generate
  rcases env.idOf d.description with e | id <;> simp
  rcases env.writeFileOk (c.genInPath id) d.description with e | _ <;> simp
  rcases env.statResult c.mermaidCLIPath with _ | _ | e <;> simp
  rcases env.runOk (c.mermaidArgs (c.genInPath id) (c.genOutPath id d.imgType)) with e | _ <;>
    simp

/-- When `generate` fails, it returns the caller's diagram unchanged. -/
lemma generate_error_preserves_diagram (c : cachingGenerator) (env : Env) (d : Diagram)
    (e : String) (h : (c.generate env d).1 = .error e) : (c.generate env d).2.1 = d := by
  unfold cachingGenerator.generate at h ⊢
  rcases h1 : env.idOf d.description with e1 | id
  · simp [h1]
  · simp only [h1] at h ⊢
    rcases h2 : env.writeFileOk (c.genInPath id) d.description with _ | e2
    · simp only [h2] at h ⊢
      rcases h3 : env.statResult c.mermaidCLIPath with _ | _ | e3
      · simp only [h3] at h ⊢
        rcases h4 : env.runOk (c.mermaidArgs (c.genInPath id) (c.genOutPath id d.imgType))
          with _ | e4
        · simp only [h4] at h
          exact absurd h (by simp)
        · simp [h4]
      · simp [h3]
      · simp [h3]
    · simp [h2]

/-! ## Claims -/

/-- C7: if the initial cache existence query (`cache.Has`) fails,
`Generate` returns the wrapped lookup error and performs no side
effects: the caller's diagram is unchanged and the effect trace is
empty (no cache write, no file write, no backend invocation). -/
theorem Generate_has_failure_no_side_effects (c : cachingGenerator) (env : Env)
    (d : Diagram) (e : String) (h : env.hasResult d = .error e) :
    c.Generate env d = (.error ("cache.Has failed: " ++ e), d, []) := by
  unfold cachingGenerator.Generate
  rw [h]

/-- Witness for C7 at a concrete failing environment. -/
theorem Generate_has_failure_no_side_effects_witness :
    cachingGenerator.Generate cfgA { envOK with hasResult := fun _ => .error "boom" } diagA
      = (.error "cache.Has failed: boom", diagA, []) :=
  Generate_has_failure_no_side_effects cfgA
    { envOK with hasResult := fun _ => .error "boom" } diagA "boom" rfl

/-- C4: on a cache hit, `Generate` fetches the full cached record,
replaces the caller's diagram with it, advances its `lastTouched` to the
current time, persists the update via `cache.Store`, and returns
successfully; the trace holds exactly that one store call, so the
rendering backend is never invoked and no input or output file is
written. -/
theorem Generate_hit_touches_and_stores (c : cachingGenerator) (env : Env)
    (d cached : Diagram) (h1 : env.hasResult d = .ok true)
    (h2 : env.getResult d = .ok cached)
    (h3 : env.storeOk (cached.Touch env.now) = none) :
    c.Generate env d = (.ok (), cached.Touch env.now,
        [Effect.storeCall (cached.Touch env.now)]) ∧
      (∀ args, Effect.runBackend args ∉ (c.Generate env d).2.2) ∧
      (∀ p s, Effect.writeInputFile p s ∉ (c.Generate env d).2.2) := by
  unfold cachingGenerator.Generate
  rw [h1]
  simp only [if_true]
  rw [h2]
  simp only []
  rw [h3]
  simp

/-- Witness for C4 at a concrete hit environment. -/
theorem Generate_hit_touches_and_stores_witness :
    cachingGenerator.Generate cfgA
        { envOK with hasResult := fun _ => .ok true,
                     getResult := fun _ => .ok { diagA with Output := "out/A.svg" } } diagA
      = (.ok (), { diagA with Output := "out/A.svg", lastTouched := 100 },
          [Effect.storeCall { diagA with Output := "out/A.svg", lastTouched := 100 }]) :=
  (Generate_hit_touches_and_stores cfgA
    { envOK with hasResult := fun _ => .ok true,
                 getResult := fun _ => .ok { diagA with Output := "out/A.svg" } }
    diagA { diagA with Output := "out/A.svg" } rfl rfl rfl).1

/-- C3: on the miss path, if the render step (`generate`) fails, then
`Generate` returns the wrapped render error and `cache.Store` is never
invoked, so no cache record is created for that identity. -/
theorem Generate_render_failure_no_store (c : cachingGenerator) (env : Env)
    (d : Diagram) (e : String) (h1 : env.hasResult d = .ok false)
    (h2 : (c.generate env (d.Touch env.now)).1 = .error e) :
    (c.Generate env d).1 = .error ("cachingGenerater.generate failed: " ++ e) ∧
      ∀ d2, Effect.storeCall d2 ∉ (c.Generate env d).2.2 := by
  unfold cachingGenerator.Generate
  rw [h1]
  simp only [if_false]
  rcases hg : c.generate env (d.Touch env.now) with ⟨r, d2, effs⟩
  rw [hg] at h2
  simp at h2
  subst h2
  refine ⟨rfl, ?_⟩
  intro d3
  have := generate_trace_no_store c env (d.Touch env.now) d3
  rw [hg] at this
  simpa using this

/-- Witness for C3 at a concrete environment where the backend run
fails. -/
theorem Generate_render_failure_no_store_witness :
    (cfgA.Generate envRunFail diagA).1 =
        .error ("cachingGenerater.generate failed: " ++
          "failed when executing mermaid: exit 1") ∧
      Effect.storeCall diagA ∉ (cfgA.Generate envRunFail diagA).2.2 :=
  ⟨(Generate_render_failure_no_store cfgA envRunFail diagA
      "failed when executing mermaid: exit 1" rfl rfl).1,
    (Generate_render_failure_no_store cfgA envRunFail diagA
      "failed when executing mermaid: exit 1" rfl rfl).2 diagA⟩

/-- C9: `Generate` can mutate the caller's diagram even when it returns
an error.  On the hit path, if `cache.Store` fails after the touch, the
caller's diagram has already been replaced by the touched cached record;
on the miss path, `lastTouched` is advanced before rendering, so a
render failure leaves the caller's diagram touched.  Neither path
restores the original diagram. -/
theorem Generate_mutates_diagram_on_error (c : cachingGenerator) (env : Env)
    (d cached : Diagram) (e e2 : String) :
    (env.hasResult d = .ok true → env.getResult d = .ok cached →
      env.storeOk (cached.Touch env.now) = some e →
      c.Generate env d = (.error ("cache.Store failed: " ++ e), cached.Touch env.now,
        [Effect.storeCall (cached.Touch env.now)])) ∧
    (env.hasResult d = .ok false → (c.generate env (d.Touch env.now)).1 = .error e2 →
      (c.Generate env d).2.1 = d.Touch env.now ∧
        (c.Generate env d).1 = .error ("cachingGenerater.generate failed: " ++ e2)) := by
  constructor
  · intro h1 h2 h3
    unfold cachingGenerator.Generate
    rw [h1]
    simp only [if_true]
    rw [h2]
    simp only []
    rw [h3]
  · intro h1 h2
    have hpres := generate_error_preserves_diagram c env (d.Touch env.now) e2 h2
    unfold cachingGenerator.Generate
    rw [h1]
    simp only [if_false]
    rcases hg : c.generate env (d.Touch env.now) with ⟨r, d2, effs⟩
    rw [hg] at h2 hpres
    simp at h2 hpres
    subst h2
    subst hpres
    exact ⟨rfl, rfl⟩

/-- Witness for C9: the hit branch at a concrete environment where
`cache.Store` fails, and the miss branch at one where the backend run
fails. -/
theorem Generate_mutates_diagram_on_error_witness :
    (cachingGenerator.Generate cfgA
        { envOK with hasResult := fun _ => .ok true,
                     getResult := fun _ => .ok { diagA with Output := "out/A.svg" },
                     storeOk := fun _ => some "disk full" } diagA
      = (.error "cache.Store failed: disk full",
          { diagA with Output := "out/A.svg", lastTouched := 100 },
          [Effect.storeCall { diagA with Output := "out/A.svg", lastTouched := 100 }])) ∧
    (cachingGenerator.Generate cfgA
        { envOK with runOk := fun _ => some "exit 1",
                     getResult := fun _ => .ok { diagA with Output := "out/A.svg" },
                     storeOk := fun _ => some "disk full" } diagA).2.1
      = { diagA with lastTouched := 100 } := by
  constructor
  · exact (Generate_mutates_diagram_on_error cfgA
      { envOK with hasResult := fun _ => .ok true,
                   getResult := fun _ => .ok { diagA with Output := "out/A.svg" },
                   storeOk := fun _ => some "disk full" }
      diagA { diagA with Output := "out/A.svg" } "disk full" "x").1 rfl rfl rfl
  · exact ((Generate_mutates_diagram_on_error cfgA
      { envOK with runOk := fun _ => some "exit 1",
                   getResult := fun _ => .ok { diagA with Output := "out/A.svg" },
                   storeOk := fun _ => some "disk full" }
      diagA { diagA with Output := "out/A.svg" } "disk full"
      "failed when executing mermaid: exit 1").2 rfl rfl).1

/-- C10: on the miss path, the description is written to
`<inPath>/<id>.mmd` before the backend executable is checked; when
`Generate` fails because the executable is missing, the input file has
already been created (the trace holds exactly that write), while no
cache record is stored and no backend runs. -/
theorem Generate_missing_backend_leaves_input_file (c : cachingGenerator) (env : Env)
    (d : Diagram) (id : String) (h1 : env.hasResult d = .ok false)
    (h2 : env.idOf d.description = .ok id)
    (h3 : env.writeFileOk (c.genInPath id) d.description = none)
    (h4 : env.statResult c.mermaidCLIPath = .notExist) :
    c.Generate env d =
      (.error ("cachingGenerater.generate failed: " ++ "mermaid executable does not exist"),
        d.Touch env.now, [Effect.writeInputFile (c.genInPath id) d.description]) := by
  have hdesc : (d.Touch env.now).description = d.description := rfl
  unfold cachingGenerator.Generate
  rw [h1]
  simp only [if_false]
  have hg : c.generate env (d.Touch env.now) =
      (.error "mermaid executable does not exist", d.Touch env.now,
        [Effect.writeInputFile (c.genInPath id) d.description]) := by
    unfold cachingGenerator.generate
    rw [hdesc, h2]
    simp only []
    rw [h3]
    simp only []
    rw [h4]
  rw [hg]
  rfl

/-- Witness for C10 at a concrete environment with a missing backend. -/
theorem Generate_missing_backend_leaves_input_file_witness :
    cachingGenerator.Generate cfgA { envOK with statResult := fun _ => .notExist } diagA =
      (.error ("cachingGenerater.generate failed: " ++ "mermaid executable does not exist"),
        { diagA with lastTouched := 100 }, [Effect.writeInputFile "in/A.mmd" "A"]) :=
  Generate_missing_backend_leaves_input_file cfgA
    { envOK with statResult := fun _ => .notExist } diagA "A" rfl rfl rfl rfl

/-- C8: whenever the render step reaches the backend invocation, the
backend is invoked with the derived input and output paths, and the
argument list carries `-p <puppeteerConfigPath>` if and only if the
configured auxiliary path is nonempty. -/
theorem generate_backend_invocation_args (c : cachingGenerator) (env : Env)
    (d : Diagram) (id : String) (h1 : env.idOf d.description = .ok id)
    (h2 : env.writeFileOk (c.genInPath id) d.description = none)
    (h3 : env.statResult c.mermaidCLIPath = .found) :
    Effect.runBackend (c.mermaidArgs (c.genInPath id) (c.genOutPath id d.imgType))
        ∈ (c.generate env d).2.2 ∧
      (c.puppeteerConfigPath ≠ "" →
        c.mermaidArgs (c.genInPath id) (c.genOutPath id d.imgType) =
          ["-i", c.genInPath id, "-o", c.genOutPath id d.imgType,
            "-p", c.puppeteerConfigPath]) ∧
      (c.puppeteerConfigPath = "" →
        c.mermaidArgs (c.genInPath id) (c.genOutPath id d.imgType) =
          ["-i", c.genInPath id, "-o", c.genOutPath id d.imgType]) := by
  refine ⟨?_, ?_, ?_⟩
  · unfold cachingGenerator.generate
    rw [h1]
    simp only []
    rw [h2]
    simp only []
    rw [h3]
    rcases h4 : env.runOk (c.mermaidArgs (c.genInPath id) (c.genOutPath id d.imgType))
      with _ | e4 <;> simp [h4]
  · intro hp
    simp [cachingGenerator.mermaidArgs, hp]
  · intro hp
    simp [cachingGenerator.mermaidArgs, hp]

/-- Witness for C8 at a concrete configuration with a nonempty puppeteer
path. -/
theorem generate_backend_invocation_args_witness :
    Effect.runBackend
        (cfgP.mermaidArgs (cfgP.genInPath "A") (cfgP.genOutPath "A" "svg"))
        ∈ (cfgP.generate envOK diagA).2.2 ∧
      cfgP.mermaidArgs (cfgP.genInPath "A") (cfgP.genOutPath "A" "svg") =
        ["-i", cfgP.genInPath "A", "-o", cfgP.genOutPath "A" "svg", "-p", "pp.json"] :=
  ⟨(generate_backend_invocation_args cfgP envOK diagA "A" rfl rfl rfl).1,
    (generate_backend_invocation_args cfgP envOK diagA "A" rfl rfl rfl).2.1 (by decide)⟩

/-- C2: `delete` derives the output path to remove with a hardcoded
`.svg` extension, which coincides with the path `generate` writes
exactly for image type `svg`; for every other image type the path
cleanup attempts to remove differs from the path generation wrote. -/
theorem delete_output_path_mismatch (c : cachingGenerator) (id imgType : String)
    (h : imgType ≠ "svg") :
    c.delOutPath id = c.genOutPath id "svg" ∧ c.delOutPath id ≠ c.genOutPath id imgType := by
  have hsvg : (".svg" : String) = "." ++ "svg" := by decide
  have key : c.delOutPath id = c.genOutPath id "svg" := by
    unfold cachingGenerator.delOutPath cachingGenerator.genOutPath
    rw [hsvg, ← string_append_assoc]
  refine ⟨key, ?_⟩
  intro heq
  rw [key] at heq
  unfold cachingGenerator.genOutPath at heq
  exact h (string_append_left_cancel _ _ _ heq).symm

/-- Witness for C2 at image type `png`. -/
theorem delete_output_path_mismatch_witness :
    ("png" : String) ≠ "svg" ∧
      (cfgA.delOutPath "A" = cfgA.genOutPath "A" "svg" ∧
        cfgA.delOutPath "A" ≠ cfgA.genOutPath "A" "png") :=
  ⟨by decide, delete_output_path_mismatch cfgA "A" "png" (by decide)⟩

/-- C6: `delete` runs three sequential steps — remove the input file,
remove the output file, remove the cache record — so its trace is always
an in-order front segment of those three effects; and when the second
step fails, the first is not undone: the input file stays removed, the
error is returned, and the cache record is still present (no
`cacheDeleteCall` in the trace). -/
theorem delete_sequential_steps_partial_state (c : cachingGenerator) (env : Env)
    (d : Diagram) (id e : String) (hid : env.idOf d.description = .ok id) :
    ((c.delete env d).2 = [] ∨
      (c.delete env d).2 = [Effect.removeFile (c.genInPath id)] ∨
      (c.delete env d).2 =
        [Effect.removeFile (c.genInPath id), Effect.removeFile (c.delOutPath id)] ∨
      (c.delete env d).2 =
        [Effect.removeFile (c.genInPath id), Effect.removeFile (c.delOutPath id),
          Effect.cacheDeleteCall d]) ∧
    (env.removeOk (c.genInPath id) = none → env.removeOk (c.delOutPath id) = some e →
      c.delete env d =
        (.error ("could not delete diagram output: " ++ e),
          [Effect.removeFile (c.genInPath id)])) := by
  constructor
  · rcases hin : env.removeOk (c.genInPath id) with _ | e1
    · rcases hout : env.removeOk (c.delOutPath id) with _ | e2
      · rcases hdel : env.deleteOk d with _ | e3
        · simp [cachingGenerator.delete, hid, hin, hout, hdel]
        · simp [cachingGenerator.delete, hid, hin, hout, hdel]
      · simp [cachingGenerator.delete, hid, hin, hout]
    · simp [cachingGenerator.delete, hid, hin]
  · intro hin hout
    unfold cachingGenerator.delete
    rw [hid]
    simp only []
    rw [hin]
    simp only []
    rw [hout]

/-- Witness for C6 at a concrete environment where removing the output
artifact fails. -/
theorem delete_sequential_steps_partial_state_witness :
    ((cfgA.delete envOutFail diagA).2 = [] ∨
      (cfgA.delete envOutFail diagA).2 = [Effect.removeFile (cfgA.genInPath "A")] ∨
      (cfgA.delete envOutFail diagA).2 =
        [Effect.removeFile (cfgA.genInPath "A"), Effect.removeFile (cfgA.delOutPath "A")] ∨
      (cfgA.delete envOutFail diagA).2 =
        [Effect.removeFile (cfgA.genInPath "A"), Effect.removeFile (cfgA.delOutPath "A"),
          Effect.cacheDeleteCall diagA]) ∧
    cfgA.delete envOutFail diagA =
      (.error ("could not delete diagram output: " ++ "EPERM"),
        [Effect.removeFile (cfgA.genInPath "A")]) :=
  ⟨(delete_sequential_steps_partial_state cfgA envOutFail diagA "A" "EPERM" rfl).1,
    (delete_sequential_steps_partial_state cfgA envOutFail diagA "A" "EPERM" rfl).2
      (by decide) (by decide)⟩

/-- C5: a record whose `lastTouched` is `now - W - ε` (for `ε > 0`) is
not within the retention window and is deleted by the sweep; a record at
`now - W + ε` is within the window and is retained — the sweep's trace
holds exactly the stale record's three deletion effects and nothing for
the fresh record. -/
theorem cleanup_retention_boundary (c : cachingGenerator) (env : Env) (W ε : Int)
    (stale fresh : Diagram) (sid : String) (hε : 0 < ε)
    (hstale : stale.lastTouched = env.now - W - ε)
    (hfresh : fresh.lastTouched = env.now - W + ε)
    (hall : env.getAllResult = .ok [stale, fresh])
    (hid : env.idOf stale.description = .ok sid)
    (hrm1 : env.removeOk (c.genInPath sid) = none)
    (hrm2 : env.removeOk (c.delOutPath sid) = none)
    (hdel : env.deleteOk stale = none) :
    stale.TouchedInDuration env.now W = false ∧
      fresh.TouchedInDuration env.now W = true ∧
      c.CleanUp env W =
        (.ok (), [Effect.removeFile (c.genInPath sid), Effect.removeFile (c.delOutPath sid),
          Effect.cacheDeleteCall stale]) := by
  have hs : stale.TouchedInDuration env.now W = false := by
    simp only [Diagram.TouchedInDuration, hstale, decide_eq_false_iff_not]
    omega
  have hf : fresh.TouchedInDuration env.now W = true := by
    simp only [Diagram.TouchedInDuration, hfresh, decide_eq_true_eq]
    omega
  refine ⟨hs, hf, ?_⟩
  have hdelete : c.delete env stale =
      (.ok (), [Effect.removeFile (c.genInPath sid), Effect.removeFile (c.delOutPath sid),
        Effect.cacheDeleteCall stale]) := by
    unfold cachingGenerator.delete
    rw [hid]
    simp only []
    rw [hrm1]
    simp only []
    rw [hrm2]
    simp only []
    rw [hdel]
  simp [cachingGenerator.CleanUp, cachingGenerator.cleanUpLoop, hall, hs, hf, hdelete]

/-- Witness for C5 at `now = 100`, `W = 10`, `ε = 5`. -/
theorem cleanup_retention_boundary_witness :
    diagStale.TouchedInDuration envRet.now 10 = false ∧
      diagFresh.TouchedInDuration envRet.now 10 = true ∧
      cfgA.CleanUp envRet 10 =
        (.ok (), [Effect.removeFile (cfgA.genInPath "A"),
          Effect.removeFile (cfgA.delOutPath "A"), Effect.cacheDeleteCall diagStale]) :=
  cleanup_retention_boundary cfgA envRet 10 5 diagStale diagFresh "A" (by decide)
    (by decide) (by decide) rfl rfl rfl rfl rfl

/-- C1 counterexample: in a sweep over records A and B, both outside the
retention window, where removing A's input file fails, the sweep returns
the error at once and record B — though due for deletion — is not
deleted: no effect for B appears in the trace.  This refutes the claim
that the sweep continues past a failed record. -/
theorem cleanup_sweep_counterexample :
    diagB.TouchedInDuration envSweep.now 10 = false ∧
      cachingGenerator.CleanUp cfgA envSweep 10 =
        (.error ("could not delete diagram: " ++ "could not delete diagram input: EACCES"),
          []) ∧
      Effect.cacheDeleteCall diagB ∉ (cachingGenerator.CleanUp cfgA envSweep 10).2 ∧
      Effect.removeFile (cfgA.genInPath "B") ∉
        (cachingGenerator.CleanUp cfgA envSweep 10).2 := by
  refine ⟨by decide, by rfl, by decide, by decide⟩

/-- C1 (amended): a failure to delete one record aborts the whole sweep:
`CleanUp` returns that record's wrapped error immediately, with only
that record's effects in the trace — later records are not evaluated or
deleted. -/
theorem cleanup_failure_aborts_sweep (c : cachingGenerator) (env : Env) (duration : Int)
    (a : Diagram) (rest : List Diagram) (e : String)
    (hall : env.getAllResult = .ok (a :: rest))
    (ha : a.TouchedInDuration env.now duration = false)
    (hfail : (c.delete env a).1 = .error e) :
    c.CleanUp env duration =
      (.error ("could not delete diagram: " ++ e), (c.delete env a).2) := by
  unfold cachingGenerator.CleanUp
  rw [hall]
  simp only []
  unfold cachingGenerator.cleanUpLoop
  rw [ha]
  simp only [Bool.false_eq_true, if_false]
  rcases hd : c.delete env a with ⟨r, effs⟩
  rw [hd] at hfail
  simp at hfail
  subst hfail
  rfl

/-- Witness for the amended C1 at the concrete failing sweep. -/
theorem cleanup_failure_aborts_sweep_witness :
    cachingGenerator.CleanUp cfgA envSweep 10 =
      (.error ("could not delete diagram: " ++ "could not delete diagram input: EACCES"),
        (cfgA.delete envSweep diagA).2) :=
  cleanup_failure_aborts_sweep cfgA envSweep 10 diagA [diagB]
    "could not delete diagram input: EACCES" rfl (by decide) (by rfl)
